import Mathlib

/-!
Verification of the session-lifecycle state machine in
src/demos/tutorialHybrid.ts: the turn router registered on the
/api/messages route, the OnSessionStartCallback and the
OnSessionEndCallback. External collaborators (bot adapter, dialogue
engine, storage) are treated as black boxes; the embedding models only
the control logic of the file, with JavaScript truthiness made explicit.
-/

namespace TutorialHybrid

/-- Per-conversation Bot state record (retrieved via convoState.get).
Fields storeIsOpen and purchasedItem may be undefined in JavaScript
before the first assignment, hence Option; the truthiness of a
missing field coincides with that of false resp. the empty string. -/
structure ConvState where
  usingConversationLearner : Bool
  storeIsOpen : Option Bool
  purchasedItem : Option String
  deriving Repr, DecidableEq

/-- JavaScript truthiness of a possibly-undefined boolean field:
undefined and false are falsy, true is truthy. -/
def truthyOptBool : Option Bool → Bool
  | some b => b
  | none => false

/-- JavaScript truthiness of a possibly-undefined string field:
undefined and the empty string are falsy. -/
def truthyOptString : Option String → Bool
  | some s => !(s = "")
  | none => false

/-- The slice of the ClientMemoryManager the file uses: entity values
remembered during the current session, and entity values of the
previous session (read by PrevEntityValue at session end). -/
structure ClientMemoryManager where
  curr : List (String × String)
  prev : List (String × String)
  deriving Repr, DecidableEq

/-- memoryManager.RememberEntity(name, value): record an entity value
in the current session memory. -/
def ClientMemoryManager.RememberEntity (m : ClientMemoryManager) (name val : String) :
    ClientMemoryManager :=
  { m with curr := (name, val) :: m.curr }

/-- memoryManager.PrevEntityValue(name): look up an entity value from
the memory of the session that just ended. -/
def ClientMemoryManager.PrevEntityValue (m : ClientMemoryManager) (name : String) :
    Option String :=
  (m.prev.find? fun p => p.1 = name).map Prod.snd

/-- SessionEndState of the SDK: terminal classification of a session.
COMPLETED corresponds to an END_SESSION action; OPEN to any other
termination (aborted or still open when torn down). -/
inductive SessionEndState
  | COMPLETED
  | OPEN
  deriving Repr, DecidableEq

/-- cl.OnSessionStartCallback (lines 62 to 68): reads the Bot state via
convoState.get and, when state exists and state.storeIsOpen is truthy,
remembers the value under the entity name isOpen. The state component
of the result is returned so that the absence of any store write is a
provable fact rather than an assumption. -/
def onSessionStartCallback (stateOpt : Option ConvState) (m : ClientMemoryManager) :
    Option ConvState × ClientMemoryManager :=
  match stateOpt with
  | some st =>
    if truthyOptBool st.storeIsOpen then
      (some st, m.RememberEntity "isOpen" (toString (st.storeIsOpen.getD false)))
    else
      (some st, m)
  | none => (none, m)

/-- cl.OnSessionEndCallback (lines 82 to 104): throws when the state
record is missing; otherwise resets usingConversationLearner
unconditionally, and on COMPLETED additionally sends a closing
acknowledgment and persists PrevEntityValue of purchaseItem into
state.purchasedItem. The data parameter of the callback is accepted
but, as in the source, never read. The second component of a
successful result lists the activities sent, in order. -/
def onSessionEndCallback (stateOpt : Option ConvState) (m : ClientMemoryManager)
    (sessionEndState : SessionEndState) (data : Option String) :
    Except String (ConvState × List String) :=
  match stateOpt with
  | none => Except.error "Bot State not Initialized!"
  | some st0 =>
    let _ := data
    let st1 := { st0 with usingConversationLearner := false }
    match sessionEndState with
    | SessionEndState.COMPLETED =>
      Except.ok ({ st1 with purchasedItem := m.PrevEntityValue "purchaseItem" },
        ["Thanks for shopping."])
    | SessionEndState.OPEN => Except.ok (st1, [])

/-- Observable steps a turn handler performs, in program order:
an outbound context.sendActivity, a cl.recognize call, a
cl.SendResult call, or a session-start hook invocation together with
the Bot state that hook observed via convoState.get. -/
inductive Event
  | sent (msg : String)
  | recognize
  | sendResult
  | startHook (observed : Option ConvState)
  deriving Repr, DecidableEq

/-- Result of one turn: the Bot state after the turn, the engine
memory after the turn, and the trace of observable events. -/
structure TurnOutput where
  state : ConvState
  memory : ClientMemoryManager
  events : List Event
  deriving Repr, DecidableEq

/-- The turn router registered on the /api/messages route (lines 129
to 197). Inputs: whether cl.inTrainingUI holds for the context, the
activity type and text, the state record convoState.get returns (none
models a missing record), the engine memory, and whether cl.recognize
returns a result. Throwing is modelled by Except.error. -/
def handleTurn (inTrainingUI : Bool) (activityType text : String)
    (stateOpt : Option ConvState) (m : ClientMemoryManager) (recognizeResult : Bool) :
    Except String TurnOutput :=
  match stateOpt with
  | none => Except.error "Error Getting State"
  | some st =>
    if inTrainingUI then
      let evs := Event.recognize :: (if recognizeResult then [Event.sendResult] else [])
      Except.ok { state := st, memory := m, events := evs }
    else if st.usingConversationLearner then
      let evs := Event.recognize :: (if recognizeResult then [Event.sendResult] else [])
      Except.ok { state := st, memory := m, events := evs }
    else if activityType = "message" then
      if text = "open store" then
        let st1 := { st with storeIsOpen := some true }
        Except.ok { state := st1, memory := m, events := [Event.sent "Store is OPEN!"] }
      else if text = "close store" then
        let st1 := { st with storeIsOpen := some false }
        Except.ok { state := st1, memory := m, events := [Event.sent "Store is CLOSED!"] }
      else if text = "shop" then
        let st1 := { st with usingConversationLearner := true }
        let started := onSessionStartCallback (some st1) m
        let evs := [Event.startHook (some st1), Event.sent "Let\x27s shop!"]
        Except.ok { state := started.1.getD st1, memory := started.2, events := evs }
      else if text = "history" then
        let item := if truthyOptString st.purchasedItem then st.purchasedItem.getD "" else "nothing"
        Except.ok { state := st, memory := m, events := [Event.sent ("You bought " ++ item)] }
      else
        let help := "You can: \"open store\", \"close store\", \"shop\", \"history\""
        Except.ok { state := st, memory := m, events := [Event.sent help] }
    else
      Except.ok { state := st, memory := m, events := [] }

/-- The Session-Start Hook never writes the state record: its state
component is always the record it was given. -/
theorem onSessionStartCallback_fst (stateOpt : Option ConvState) (m : ClientMemoryManager) :
    (onSessionStartCallback stateOpt m).1 = stateOpt := by
  cases stateOpt with
  | none => rfl
  | some st =>
    simp only [onSessionStartCallback]
    split <;> rfl

/-- Claim C1: after any Session-End Hook invocation on an existing state
record, the usingConversationLearner field of the resulting state is
false, whatever the terminal classification and whatever the engine
memory or payload. -/
theorem C1_sessionEnd_resets_usingDelegate (st : ConvState) (m : ClientMemoryManager)
    (se : SessionEndState) (d : Option String) :
    (onSessionEndCallback (some st) m se d).toOption.map
      (fun p => p.1.usingConversationLearner) = some false := by
  cases se <;> rfl

/-- Claim C2: a turn flagged as coming from the training UI is routed to
the recognize and SendResult step of the engine, for every activity
type and text, every state record (including usingConversationLearner
false with text matching a local command): the state and memory are
untouched and the event trace holds no local send and no hook call. -/
theorem C2_trainingUI_owns_turn (activityType text : String) (st : ConvState)
    (m : ClientMemoryManager) (r : Bool) :
    handleTurn true activityType text (some st) m r =
      Except.ok { state := st, memory := m,
                  events := Event.recognize :: (if r then [Event.sendResult] else []) } := by
  rfl

/-- Claim C3: a message turn with text shop, usingConversationLearner
false and not in the training UI toggles usingConversationLearner to
true, then invokes the Session-Start Hook exactly once on the toggled
state (whose storeIsOpen is the pre-turn value), then sends the shop
confirmation; the resulting memory is the one the hook produced. -/
theorem C3_shop_starts_session (sOpen : Option Bool) (pI : Option String)
    (m : ClientMemoryManager) (r : Bool) :
    handleTurn false "message" "shop" (some ⟨false, sOpen, pI⟩) m r =
      Except.ok { state := ⟨true, sOpen, pI⟩,
                  memory := (onSessionStartCallback (some ⟨true, sOpen, pI⟩) m).2,
                  events := [Event.startHook (some ⟨true, sOpen, pI⟩),
                             Event.sent "Let\x27s shop!"] } ∧
    (⟨true, sOpen, pI⟩ : ConvState).storeIsOpen = (⟨false, sOpen, pI⟩ : ConvState).storeIsOpen := by
  constructor
  · simp [handleTurn, onSessionStartCallback_fst]
  · rfl

/-- Claim C4, counterexample: with the state record present and
storeIsOpen present with value false, the Session-Start Hook makes no
copy at all: the memory is returned unchanged and no entry named
isOpen exists in it, contradicting the claim that a present flagA is
always copied. -/
theorem C4_counterexample :
    (onSessionStartCallback (some ⟨false, some false, none⟩) ⟨[], []⟩).2 =
      (⟨[], []⟩ : ClientMemoryManager) ∧
    ((onSessionStartCallback (some ⟨false, some false, none⟩) ⟨[], []⟩).2.curr.find?
      fun p => p.1 = "isOpen") = none := by
  constructor <;> rfl

/-- Claim C4, amended: the Session-Start Hook copies storeIsOpen into
the engine memory under the entity name isOpen exactly when it is
present and true (JavaScript truthiness); otherwise the memory is
unchanged; and in every case the state record is returned without any
write. -/
theorem C4_amended_sessionStart_seeds_memory (u : Bool) (sOpen : Option Bool)
    (pI : Option String) (m : ClientMemoryManager) :
    (onSessionStartCallback (some ⟨u, sOpen, pI⟩) m).1 = some ⟨u, sOpen, pI⟩ ∧
    (onSessionStartCallback (some ⟨u, sOpen, pI⟩) m).2 =
      (if sOpen = some true then m.RememberEntity "isOpen" "true" else m) := by
  constructor
  · cases sOpen with
    | none => rfl
    | some b => cases b <;> rfl
  · cases sOpen with
    | none => rfl
    | some b =>
      cases b with
      | false => simp [onSessionStartCallback, truthyOptBool]
      | true =>
        simp only [onSessionStartCallback, truthyOptBool]
        rfl

/-- Claim C5, counterexample: with the empty string as the engine
result for purchaseItem, a COMPLETED session end persists the empty
string into purchasedItem, yet the subsequent history turn reports
nothing instead of echoing the persisted value verbatim. -/
theorem C5_counterexample :
    (onSessionEndCallback (some ⟨true, none, none⟩) ⟨[], [("purchaseItem", "")]⟩
        SessionEndState.COMPLETED none).toOption.map (fun p => p.1.purchasedItem) =
      some (some "") ∧
    (handleTurn false "message" "history" (some ⟨false, none, some ""⟩) ⟨[], []⟩
        false).toOption.map TurnOutput.events = some [Event.sent "You bought nothing"] ∧
    "You bought nothing" ≠ "You bought " ++ "" := by
  refine ⟨by decide, by decide, by decide⟩

/-- Claim C5, amended: a COMPLETED session end sends the closing
acknowledgment and persists the engine result for purchaseItem into
purchasedItem; a subsequent history turn echoes the persisted value
verbatim when it is a non-empty string, and reports nothing when the
value was never set (the empty string is also reported as nothing,
by JavaScript truthiness). -/
theorem C5_amended_completed_end_then_history (u : Bool) (sOpen : Option Bool)
    (pI : Option String) (m m2 : ClientMemoryManager) (d : Option String) (r : Bool)
    (v : String) (hv : m.PrevEntityValue "purchaseItem" = some v) (hne : v ≠ "") :
    onSessionEndCallback (some ⟨u, sOpen, pI⟩) m SessionEndState.COMPLETED d =
      Except.ok (⟨false, sOpen, some v⟩, ["Thanks for shopping."]) ∧
    handleTurn false "message" "history" (some ⟨false, sOpen, some v⟩) m2 r =
      Except.ok { state := ⟨false, sOpen, some v⟩, memory := m2,
                  events := [Event.sent ("You bought " ++ v)] } ∧
    handleTurn false "message" "history" (some ⟨false, sOpen, none⟩) m2 r =
      Except.ok { state := ⟨false, sOpen, none⟩, memory := m2,
                  events := [Event.sent "You bought nothing"] } := by
  refine ⟨?_, ?_, ?_⟩
  · simp [onSessionEndCallback, hv]
  · simp [handleTurn, truthyOptString, hne]
  · rfl

/-- Witness for the amended claim C5, at result value shirt. -/
theorem C5_amended_witness :
    ((⟨[], [("purchaseItem", "shirt")]⟩ : ClientMemoryManager).PrevEntityValue
        "purchaseItem" = some "shirt" ∧ "shirt" ≠ "") ∧
    (onSessionEndCallback (some ⟨true, none, none⟩) ⟨[], [("purchaseItem", "shirt")]⟩
        SessionEndState.COMPLETED none =
      Except.ok (⟨false, none, some "shirt"⟩, ["Thanks for shopping."]) ∧
    handleTurn false "message" "history" (some ⟨false, none, some "shirt"⟩) ⟨[], []⟩ false =
      Except.ok { state := ⟨false, none, some "shirt"⟩, memory := ⟨[], []⟩,
                  events := [Event.sent ("You bought " ++ "shirt")] } ∧
    handleTurn false "message" "history" (some ⟨false, none, none⟩) ⟨[], []⟩ false =
      Except.ok { state := ⟨false, none, none⟩, memory := ⟨[], []⟩,
                  events := [Event.sent "You bought nothing"] }) :=
  ⟨⟨by decide, by decide⟩,
   C5_amended_completed_end_then_history true none none ⟨[], [("purchaseItem", "shirt")]⟩
     ⟨[], []⟩ none false "shirt" (by decide) (by decide)⟩

/-- Claim C6: a message turn whose text is none of the four commands,
with usingConversationLearner false and not in the training UI, sends
exactly the generic help message and leaves the state record and the
engine memory unchanged. -/
theorem C6_unknown_text_sends_help (text : String) (sOpen : Option Bool) (pI : Option String)
    (m : ClientMemoryManager) (r : Bool)
    (h1 : text ≠ "open store") (h2 : text ≠ "close store")
    (h3 : text ≠ "shop") (h4 : text ≠ "history") :
    handleTurn false "message" text (some ⟨false, sOpen, pI⟩) m r =
      Except.ok { state := ⟨false, sOpen, pI⟩, memory := m,
                  events := [Event.sent
                    "You can: \"open store\", \"close store\", \"shop\", \"history\""] } := by
  simp [handleTurn, h1, h2, h3, h4]

/-- Witness for claim C6, at text hello. -/
theorem C6_witness :
    (("hello" : String) ≠ "open store" ∧ ("hello" : String) ≠ "close store" ∧
     ("hello" : String) ≠ "shop" ∧ ("hello" : String) ≠ "history") ∧
    handleTurn false "message" "hello" (some ⟨false, none, none⟩) ⟨[], []⟩ false =
      Except.ok { state := ⟨false, none, none⟩, memory := ⟨[], []⟩,
                  events := [Event.sent
                    "You can: \"open store\", \"close store\", \"shop\", \"history\""] } :=
  ⟨⟨by decide, by decide, by decide, by decide⟩,
   C6_unknown_text_sends_help "hello" none none ⟨[], []⟩ false
     (by decide) (by decide) (by decide) (by decide)⟩

/-- Claim C7: under local dispatch, text open store sets storeIsOpen to
true and sends the open confirmation; text close store sets it to
false and sends the close confirmation; in both cases
usingConversationLearner is unchanged (false in, false out) and the
engine memory is untouched. -/
theorem C7_open_close_store (sOpen : Option Bool) (pI : Option String)
    (m : ClientMemoryManager) (r : Bool) :
    handleTurn false "message" "open store" (some ⟨false, sOpen, pI⟩) m r =
      Except.ok { state := ⟨false, some true, pI⟩, memory := m,
                  events := [Event.sent "Store is OPEN!"] } ∧
    handleTurn false "message" "close store" (some ⟨false, sOpen, pI⟩) m r =
      Except.ok { state := ⟨false, some false, pI⟩, memory := m,
                  events := [Event.sent "Store is CLOSED!"] } := by
  constructor <;> simp [handleTurn]

/-- Claim C8: when the state record cannot be obtained, the turn
handler raises the state error and produces no event at all, for every
training flag, activity type and text: no ownership decision, no
mutation and no outbound send happen. -/
theorem C8_missing_state_aborts_turn (inTrainingUI : Bool) (activityType text : String)
    (m : ClientMemoryManager) (r : Bool) :
    handleTurn inTrainingUI activityType text none m r =
      Except.error "Error Getting State" := rfl

/-- Claim C9: the Session-End Hook invoked without a state record
raises its error before any mutation or send: the result is the bare
error, carrying no updated state and no sent message, for every
memory, classification and payload. -/
theorem C9_sessionEnd_missing_state_throws (m : ClientMemoryManager)
    (se : SessionEndState) (d : Option String) :
    onSessionEndCallback none m se d = Except.error "Bot State not Initialized!" := rfl

/-- Claim C10: the Session-End Hook is independent of its free-form
data payload: two invocations differing only in data produce the same
resulting state and the same sent messages. -/
theorem C10_sessionEnd_independent_of_data (stateOpt : Option ConvState)
    (m : ClientMemoryManager) (se : SessionEndState) (d1 d2 : Option String) :
    onSessionEndCallback stateOpt m se d1 = onSessionEndCallback stateOpt m se d2 := rfl

end TutorialHybrid
